import Mathlib

/-!
Shallow embedding of the endgame knowledge subsystem of the StockfishUCT
engine (src/endgame.cpp), together with theorems checking the
natural-language specification against it.

Squares are indices 0..63 (A1 = 0, H8 = 63), files 0..7 (A..H) and ranks
0..7 (rank 1 .. rank 8), exactly as in the engine.  Board-geometry
primitives (file_of, rank_of, distance, relative_rank, opposite_colors,
the vertical-flip operator, square construction) live in the engine's
types/bitboard headers, which the specification designates as external
collaborators; they are modelled here from their standard definitions.
Evaluator control flow and all numeric formulas are translated directly
from src/endgame.cpp.  Queries that depend on board occupancy (sliding
attacks, legal-move generation, passed-pawn tests) are results of the
external position collaborator and enter the embedding as explicit
Boolean inputs.
-/

set_option autoImplicit false

namespace StockfishEndgame

/-- Board squares, 0 = A1 .. 63 = H8. -/
abbrev Square := Fin 64

/-- Piece colors. -/
inductive Color where
  | WHITE : Color
  | BLACK : Color
deriving DecidableEq, Repr

/-- Opposite color, `~c` in the engine. -/
def opp : Color → Color
  | Color.WHITE => Color.BLACK
  | Color.BLACK => Color.WHITE

/-- File index of a square (engine `file_of`, s & 7). -/
def file_of (s : Square) : Nat := s.val % 8

/-- Rank index of a square (engine `rank_of`, s >> 3). -/
def rank_of (s : Square) : Nat := s.val / 8

/-- Engine `make_square(f, r) = (r << 3) + f`; reduced mod 64 for totality. -/
def make_square (f r : Nat) : Square := ⟨(8 * r + f) % 64, Nat.mod_lt _ (by norm_num)⟩

/-- File distance, engine `distance<File>`. -/
def fileDistance (a b : Square) : Nat :=
  max (file_of a) (file_of b) - min (file_of a) (file_of b)

/-- Rank distance, engine `distance<Rank>`. -/
def rankDistance (a b : Square) : Nat :=
  max (rank_of a) (rank_of b) - min (rank_of a) (rank_of b)

/-- Chebyshev square distance, engine `distance(Square, Square)`. -/
def distance (a b : Square) : Nat := max (fileDistance a b) (rankDistance a b)

/-- Rank of a square from the point of view of color `c`, engine `relative_rank`. -/
def relative_rank (c : Color) (s : Square) : Nat :=
  match c with
  | Color.WHITE => rank_of s
  | Color.BLACK => 7 - rank_of s

/-- Vertical board flip, the engine's `operator~` on squares: `s ^ SQ_A8` (s XOR 56). -/
def flipVert (s : Square) : Square := ⟨(s.val ^^^ 56) % 64, Nat.mod_lt _ (by norm_num)⟩

/-- Horizontal mirror, `s ^ 7` (SQ_H1 -> SQ_A1) as used inside `normalize`. -/
def mirrorFile (s : Square) : Square := ⟨(s.val ^^^ 7) % 64, Nat.mod_lt _ (by norm_num)⟩

/-- Engine `relative_square(c, s)`: identity for WHITE, vertical flip for BLACK. -/
def relative_square (c : Color) (s : Square) : Square :=
  match c with
  | Color.WHITE => s
  | Color.BLACK => flipVert s

/-- Engine `opposite_colors(s1, s2)`: true iff the two squares have different
square colors; translated from the bit formula `((s >> 3) ^ s) & 1` with
`s = s1 ^ s2`. -/
def opposite_colors (a b : Square) : Bool :=
  ((((a.val ^^^ b.val) >>> 3) ^^^ (a.val ^^^ b.val)) &&& 1) == 1

/-- A square is dark iff file + rank is even (A1 is dark); membership in the
engine's `DarkSquares` bitboard 0xAA55AA55AA55AA55. -/
def isDark (s : Square) : Bool := (file_of s + rank_of s) % 2 == 0

/-- Square A1 (used as the canonical dark square in the KXK evaluator). -/
def sqA1 : Square := ⟨0, by norm_num⟩

/-- Pawn push direction as a signed square delta, engine `pawn_push`. -/
def pawnPushDelta (c : Color) : Int :=
  match c with
  | Color.WHITE => 8
  | Color.BLACK => -8

/-- Square obtained by adding a signed delta to a square index; reduced into
the board for totality (all uses in the evaluators stay on the board). -/
def sqShift (s : Square) (d : Int) : Square :=
  ⟨((s.val + d).toNat) % 64, Nat.mod_lt _ (by norm_num)⟩

/-- Map the square as if strongSide is white and strongSide's only pawn is on
the left half of the board; translated from `normalize` in src/endgame.cpp.
`strongPawnSq` is `pos.square<PAWN>(strongSide)`. -/
def normalize (strongPawnSq : Square) (strongSide : Color) (sq : Square) : Square :=
  let sq1 := if 4 ≤ file_of strongPawnSq then mirrorFile sq else sq
  if strongSide = Color.BLACK then flipVert sq1 else sq1

/-- Modelled from the spec: the drawn score returned by the value evaluators
(engine constant `VALUE_DRAW` from the types header, not under src/). -/
def VALUE_DRAW : Int := 0

/-- Modelled from the spec: the known-win baseline score (engine constant
`VALUE_KNOWN_WIN` from the types header, not under src/). -/
def VALUE_KNOWN_WIN : Int := 10000

/-- Modelled from the spec: endgame pawn value (engine constant `PawnValueEg`
from the types header, not under src/). -/
def PawnValueEg : Int := 258

/-- Modelled from the spec: scale factor meaning "treat as an exact draw"
(engine constant `SCALE_FACTOR_DRAW`, types header, not under src/). -/
def SCALE_FACTOR_DRAW : Int := 0

/-- Modelled from the spec: the normal scale factor (engine constant
`SCALE_FACTOR_NORMAL = 64`, types header, not under src/). -/
def SCALE_FACTOR_NORMAL : Int := 64

/-- Modelled from the spec: the maximal scale factor (engine constant
`SCALE_FACTOR_MAX = 128`, types header, not under src/). -/
def SCALE_FACTOR_MAX : Int := 128

/-- Modelled from the spec: scale factor meaning "no adjustment" (engine
constant `SCALE_FACTOR_NONE = 255`, types header, not under src/). -/
def SCALE_FACTOR_NONE : Int := 255

/-- Table driving the king to the edge, from src/endgame.cpp. -/
def PushToEdges : List Int :=
  [ 400, 360, 320, 280, 280, 320, 360, 400,
    360, 280, 240, 200, 200, 240, 280, 360,
    320, 240, 160, 120, 120, 160, 240, 320,
    280, 200, 120,  80,  80, 120, 200, 280,
    280, 200, 120,  80,  80, 120, 200, 280,
    320, 240, 160, 120, 120, 160, 240, 320,
    360, 280, 240, 200, 200, 240, 280, 360,
    400, 360, 320, 280, 280, 320, 360, 400 ]

/-- Table driving the king to a corner of the right color, from src/endgame.cpp. -/
def PushToCorners : List Int :=
  [ 800, 700, 600, 500, 400, 300, 200, 100,
    700, 560, 460, 360, 260, 160,  60, 200,
    600, 460, 320, 220, 120,  20, 160, 300,
    500, 360, 220,  50, -50, 120, 260, 400,
    400, 260, 120, -50,  50, 220, 360, 500,
    300, 160,  20, 120, 220, 320, 460, 600,
    200,  60, 160, 260, 360, 460, 560, 700,
    100, 200, 300, 400, 500, 600, 700, 800 ]

/-- Proximity reward table indexed by king distance, from src/endgame.cpp. -/
def PushClose : List Int := [0, 0, 400, 320, 240, 160, 80, 40]

/-- Distance reward table, from src/endgame.cpp (unused by the claims
settled here but part of the Geometry Tables component). -/
def PushAway : List Int := [0, 20, 80, 160, 240, 320, 360, 400]

/-- Pawn-rank based scaling factors used in the KRPPKRP endgame, from
src/endgame.cpp. -/
def KRPPKRPScaleFactors : List Int := [0, 9, 10, 14, 21, 44, 0, 0]

/-- Lookup into one of the 64-entry square tables. -/
def tableAt (l : List Int) (i : Nat) : Int := l.getD i 0

theorem file_of_lt (s : Square) : file_of s < 8 := Nat.mod_lt _ (by norm_num)

theorem rank_of_lt (s : Square) : rank_of s < 8 := by
  have h := s.isLt
  unfold rank_of
  omega

theorem fileDistance_le (a b : Square) : fileDistance a b ≤ 7 := by
  have ha := file_of_lt a
  have hb := file_of_lt b
  unfold fileDistance
  omega

theorem rankDistance_le (a b : Square) : rankDistance a b ≤ 7 := by
  have ha := rank_of_lt a
  have hb := rank_of_lt b
  unfold rankDistance
  omega

theorem distance_le (a b : Square) : distance a b ≤ 7 := by
  have ha := fileDistance_le a b
  have hb := rankDistance_le a b
  unfold distance
  omega

/-! KX vs K value evaluator (`Endgame<KXK>::operator()` in src/endgame.cpp).
The position accessors it reads become fields of `KXKPos`; the stalemate
test (`side_to_move() == weakSide && !MoveList<LEGAL>(pos).size()`) depends
on the external move generator and enters as a Boolean field. -/

structure KXKPos where
  /-- `pos.side_to_move() == strongSide`. -/
  strongToMove : Bool
  /-- Weak side to move with no legal move (external move generator). -/
  stalemate : Bool
  /-- `pos.pieces(strongSide, BISHOP)` as a list of squares. -/
  bishops : List Square
  /-- `pos.count<KNIGHT>(strongSide)`. -/
  knightCount : Nat
  /-- `pos.count<PAWN>(strongSide)`. -/
  pawnCount : Nat
  /-- `pos.count<ROOK>(strongSide)`. -/
  rookCount : Nat
  /-- `pos.count<QUEEN>(strongSide)`. -/
  queenCount : Nat
  /-- `pos.non_pawn_material(strongSide)` (a non-negative value). -/
  npm : Nat
  /-- `pos.square<KING>(strongSide)`. -/
  winnerKSq : Square
  /-- `pos.square<KING>(weakSide)`. -/
  loserKSq : Square

/-- The same-colored-bishops draw test of the KXK evaluator: more than one
bishop, not both square colors represented, and no pawn/knight/rook/queen. -/
def kxkBishopDraw (p : KXKPos) : Bool :=
  decide (1 < p.bishops.length)
  && !(p.bishops.any isDark && p.bishops.any (fun b => !isDark b))
  && p.pawnCount == 0
  && p.knightCount == 0
  && p.rookCount == 0
  && p.queenCount == 0

/-- Value evaluator for KX vs K, translated from src/endgame.cpp lines
147-190.  The corner-push block flips both king squares with the engine's
vertical-flip `operator~` when the bishop is on the opposite color of A1
(only the flipped loser king square is subsequently read). -/
def kxk (p : KXKPos) : Int :=
  if p.stalemate then VALUE_DRAW
  else if kxkBishopDraw p then VALUE_DRAW
  else
    let base : Int := VALUE_KNOWN_WIN + (p.npm / 10 : Nat)
        + tableAt PushToEdges p.loserKSq.val
        + tableAt PushClose (distance p.winnerKSq p.loserKSq)
    let result : Int :=
      if p.bishops.length == 1 && p.knightCount == 1 then
        let bishopSq := p.bishops.headD sqA1
        let loserKSq := if opposite_colors bishopSq sqA1 then flipVert p.loserKSq else p.loserKSq
        base + tableAt PushToCorners loserKSq.val
      else base
    if p.strongToMove then result else -result

/-- Modelled from the spec, for a refinement comparison only: the claim's
reading of the KXK corner-push block, in which both king squares are
reflected through the board center (s -> 63 - s) exactly when the bishop
sits on a dark square. -/
def kxkClaimC3 (p : KXKPos) : Int :=
  if p.stalemate then VALUE_DRAW
  else if kxkBishopDraw p then VALUE_DRAW
  else
    let base : Int := VALUE_KNOWN_WIN + (p.npm / 10 : Nat)
        + tableAt PushToEdges p.loserKSq.val
        + tableAt PushClose (distance p.winnerKSq p.loserKSq)
    let result : Int :=
      if p.bishops.length == 1 && p.knightCount == 1 then
        let bishopSq := p.bishops.headD sqA1
        let loserKSq :=
          if isDark bishopSq then (⟨63 - p.loserKSq.val, by omega⟩ : Square) else p.loserKSq
        base + tableAt PushToCorners loserKSq.val
      else base
    if p.strongToMove then result else -result

/-- C6 counterexample: the claim asserts that file mirroring (sq XOR 7) and
the color flip are idempotent; file mirroring is not (and neither is the
flip), since applying it twice returns the original square, which differs
from the once-mirrored square already at square A1. -/
theorem mirror_flip_not_idempotent :
    ¬ ((∀ s : Square, mirrorFile (mirrorFile s) = mirrorFile s)
       ∧ (∀ s : Square, flipVert (flipVert s) = flipVert s)) := by
  decide

/-- C6 (amended): file mirroring and the color flip are each self-inverse
on square indices, and `normalize` applied twice with the same
(strong pawn square, strong side) context is the identity. -/
theorem normalize_involution :
    (∀ s : Square, mirrorFile (mirrorFile s) = s)
    ∧ (∀ s : Square, flipVert (flipVert s) = s)
    ∧ (∀ (pawn : Square) (c : Color) (s : Square),
        normalize pawn c (normalize pawn c s) = s) := by
  refine ⟨by decide, by decide, ?_⟩
  intro pawn c s
  unfold normalize
  rcases c with _ | _ <;> simp <;>
    rcases Nat.lt_or_ge (file_of pawn) 4 with h | h <;> simp [Nat.not_le_of_lt, h] <;> revert s <;> decide

/-- C7 counterexample: PushClose is not monotonically non-increasing over
the whole index range 0..7; the entry at distance 1 (value 0) is smaller
than the entry at distance 2 (value 400). -/
theorem pushClose_not_monotone_from_zero :
    ¬ (∀ d1 d2 : Fin 8, d1 < d2 → tableAt PushClose d1.val ≥ tableAt PushClose d2.val) := by
  decide

/-- C7 (amended): over the distances 2..7 actually realizable between two
kings on a legal board, PushClose is monotonically non-increasing (indeed
strictly decreasing): closer kings always earn at least as large a reward. -/
theorem pushClose_antitone_on_legal_range :
    ∀ d1 d2 : Fin 8, 2 ≤ d1.val → d1 < d2 →
      tableAt PushClose d1.val ≥ tableAt PushClose d2.val := by
  decide

/-- C7 witness: the amended monotonicity theorem applied at distances 2 and 7. -/
theorem pushClose_antitone_witness :
    tableAt PushClose 2 ≥ tableAt PushClose 7 :=
  pushClose_antitone_on_legal_range 2 7 (by decide) (by decide)

theorem opposite_colors_A1 : ∀ b : Square, opposite_colors b sqA1 = !isDark b := by
  decide

theorem sign_mul (c : Bool) (x : Int) :
    (if c = true then x else -x) = (if c = true then 1 else -1) * x := by
  rcases c with _ | _ <;> simp

theorem pushToEdges_ge (s : Square) : 80 ≤ tableAt PushToEdges s.val := by
  revert s; decide

theorem pushToCorners_ge (s : Square) : -50 ≤ tableAt PushToCorners s.val := by
  revert s; decide

theorem pushClose_nonneg (d : Nat) : 0 ≤ tableAt PushClose d := by
  rcases Nat.lt_or_ge d 8 with h | h
  · interval_cases d <;> decide
  · unfold tableAt
    rw [List.getD_eq_default]
    unfold PushClose
    simp
    omega

/-- C3 counterexample: with the strong bishop on B1 (a light square), the
weak king on A8 and the strong king on C6, the KXK evaluator flips the
corner-table lookup (B1 is opposite in color to A1), while the claim's
reading - flip through the board center exactly when the bishop is dark -
leaves it unflipped; the two computed values differ (corner term 800
versus 100). -/
theorem kxk_corner_flip_counterexample :
    kxkClaimC3
        { strongToMove := true, stalemate := false, bishops := [⟨1, by norm_num⟩],
          knightCount := 1, pawnCount := 0, rookCount := 0, queenCount := 0,
          npm := 0, winnerKSq := ⟨42, by norm_num⟩, loserKSq := ⟨56, by norm_num⟩ }
      ≠ kxk
        { strongToMove := true, stalemate := false, bishops := [⟨1, by norm_num⟩],
          knightCount := 1, pawnCount := 0, rookCount := 0, queenCount := 0,
          npm := 0, winnerKSq := ⟨42, by norm_num⟩, loserKSq := ⟨56, by norm_num⟩ } := by
  decide

/-- C3 (amended): when neither draw short-circuit fires, the KXK value
contains the PushToCorners term exactly when the strong side has exactly one
bishop and exactly one knight, and the corner lookup uses the loser king
square flipped vertically (the engine's square complement, which changes the
square color) precisely when the bishop sits on a LIGHT square; a
dark-squared bishop leaves the table unflipped. -/
theorem kxk_corner_term (p : KXKPos)
    (h1 : p.stalemate = false) (h2 : kxkBishopDraw p = false) :
    kxk p = (if p.strongToMove then 1 else -1) *
      (VALUE_KNOWN_WIN + (p.npm / 10 : Nat) + tableAt PushToEdges p.loserKSq.val
        + tableAt PushClose (distance p.winnerKSq p.loserKSq)
        + (if p.bishops.length = 1 ∧ p.knightCount = 1 then
            (if isDark (p.bishops.headD sqA1) then tableAt PushToCorners p.loserKSq.val
             else tableAt PushToCorners (flipVert p.loserKSq).val)
           else 0)) := by
  unfold kxk
  rw [h1, h2]
  simp only [Bool.false_eq_true, if_false]
  rw [opposite_colors_A1]
  rcases hc : p.bishops.length == 1 && p.knightCount == 1 with _ | _
  · have hc' : ¬ (p.bishops.length = 1 ∧ p.knightCount = 1) := by
      intro h
      rw [h.1, h.2] at hc
      simp at hc
    simp only [hc, if_neg hc', Bool.false_eq_true, if_false]
    rcases p.strongToMove with _ | _ <;> simp
  · have hc' : p.bishops.length = 1 ∧ p.knightCount = 1 := by
      constructor <;> [skip; skip] <;>
        · have := hc
          simp [Bool.and_eq_true, beq_iff_eq] at this
          omega
    simp only [hc, if_pos hc']
    rcases hd : isDark (p.bishops.headD sqA1) with _ | _ <;>
      simp only [Bool.not_false, Bool.not_true, if_true, Bool.false_eq_true, if_false] <;>
      rcases p.strongToMove with _ | _ <;> simp

/-- C3 witness: the amended corner-term theorem applied at a concrete
position with a dark-squared bishop on A1-color (bishop C1), one knight,
kings on C6 and A8. -/
theorem kxk_corner_term_witness :
    kxk
        { strongToMove := true, stalemate := false, bishops := [⟨2, by norm_num⟩],
          knightCount := 1, pawnCount := 0, rookCount := 0, queenCount := 0,
          npm := 0, winnerKSq := ⟨42, by norm_num⟩, loserKSq := ⟨56, by norm_num⟩ }
      = (if true then 1 else -1) *
        (VALUE_KNOWN_WIN + ((0 : Nat) / 10 : Nat)
          + tableAt PushToEdges (56 : Nat)
          + tableAt PushClose (distance ⟨42, by norm_num⟩ ⟨56, by norm_num⟩)
          + (if ([(⟨2, by norm_num⟩ : Square)].length = 1 ∧ (1 : Nat) = 1) then
              (if isDark ([(⟨2, by norm_num⟩ : Square)].headD sqA1) then
                tableAt PushToCorners (56 : Nat)
               else tableAt PushToCorners (flipVert ⟨56, by norm_num⟩).val)
             else 0)) :=
  kxk_corner_term
    { strongToMove := true, stalemate := false, bishops := [⟨2, by norm_num⟩],
      knightCount := 1, pawnCount := 0, rookCount := 0, queenCount := 0,
      npm := 0, winnerKSq := ⟨42, by norm_num⟩, loserKSq := ⟨56, by norm_num⟩ }
    (by decide) (by decide)

/-- C4: if the strong side has two or more bishops, all on squares of one
color class, and no pawn, knight, rook or queen, the KXK evaluator returns
VALUE_DRAW, for any placement of the two kings, any number of such bishops,
any non-pawn material and either side to move. -/
theorem kxk_same_color_bishops_draw (p : KXKPos)
    (hlen : 2 ≤ p.bishops.length)
    (hsame : ∀ a ∈ p.bishops, ∀ b ∈ p.bishops, isDark a = isDark b)
    (hp : p.pawnCount = 0) (hn : p.knightCount = 0)
    (hr : p.rookCount = 0) (hq : p.queenCount = 0) :
    kxk p = VALUE_DRAW := by
  have hd : kxkBishopDraw p = true := by
    unfold kxkBishopDraw
    simp only [hp, hn, hr, hq, Bool.and_true, beq_self_eq_true, Bool.and_eq_true,
      decide_eq_true_eq, Bool.not_eq_true']
    refine ⟨by omega, ?_⟩
    rcases hda : p.bishops.any isDark with _ | _
    · simp
    · rcases hli : p.bishops.any (fun b => !isDark b) with _ | _
      · simp
      · exfalso
        rw [List.any_eq_true] at hda hli
        obtain ⟨a, ha, hda⟩ := hda
        obtain ⟨b, hb, hlb⟩ := hli
        have := hsame a ha b hb
        rw [this] at hda
        simp at hlb
        rw [hlb] at hda
        exact Bool.false_ne_true hda
  unfold kxk
  rw [hd]
  rcases hs : p.stalemate with _ | _ <;> simp

/-- C4 witness: the draw theorem applied to a concrete position with two
dark-squared bishops on A1 and C1, kings on C6 and A8, strong side to move. -/
theorem kxk_same_color_bishops_draw_witness :
    kxk
        { strongToMove := true, stalemate := false,
          bishops := [⟨0, by norm_num⟩, ⟨2, by norm_num⟩],
          knightCount := 0, pawnCount := 0, rookCount := 0, queenCount := 0,
          npm := 1652, winnerKSq := ⟨42, by norm_num⟩, loserKSq := ⟨56, by norm_num⟩ }
      = VALUE_DRAW :=
  kxk_same_color_bishops_draw
    { strongToMove := true, stalemate := false,
      bishops := [⟨0, by norm_num⟩, ⟨2, by norm_num⟩],
      knightCount := 0, pawnCount := 0, rookCount := 0, queenCount := 0,
      npm := 1652, winnerKSq := ⟨42, by norm_num⟩, loserKSq := ⟨56, by norm_num⟩ }
    (by decide) (by decide) rfl rfl rfl rfl

/-- C10: when neither draw short-circuit of the KXK evaluator fires, the
returned value strictly exceeds VALUE_KNOWN_WIN in absolute magnitude for
every placement of the two kings and every non-negative non-pawn material,
and its sign is positive exactly when the strong side is to move. -/
theorem kxk_exceeds_known_win (p : KXKPos)
    (h1 : p.stalemate = false) (h2 : kxkBishopDraw p = false) :
    (p.strongToMove = true → VALUE_KNOWN_WIN < kxk p)
    ∧ (p.strongToMove = false → kxk p < -VALUE_KNOWN_WIN) := by
  have hE := pushToEdges_ge p.loserKSq
  have hC := pushClose_nonneg (distance p.winnerKSq p.loserKSq)
  have hnpm : (0 : Int) ≤ (p.npm / 10 : Nat) := Int.ofNat_nonneg _
  unfold kxk
  rw [h1, h2]
  simp only [Bool.false_eq_true, if_false]
  rcases hc : p.bishops.length == 1 && p.knightCount == 1 with _ | _
  · simp only [Bool.false_eq_true, if_false]
    rcases hstm : p.strongToMove with _ | _ <;>
      simp only [Bool.false_eq_true, if_false, if_true] <;>
      constructor <;> intro h <;> first
        | (unfold VALUE_KNOWN_WIN at *; omega)
        | simp at h
  · simp only [if_true]
    have hK : -50 ≤ tableAt PushToCorners
        ((if opposite_colors (p.bishops.headD sqA1) sqA1 then flipVert p.loserKSq
          else p.loserKSq) : Square).val := by
      rcases opposite_colors (p.bishops.headD sqA1) sqA1 with _ | _ <;>
        simp only [Bool.false_eq_true, if_false, if_true] <;>
        apply pushToCorners_ge
    rcases hstm : p.strongToMove with _ | _ <;>
      simp only [Bool.false_eq_true, if_false, if_true] <;>
      constructor <;> intro h <;> first
        | (unfold VALUE_KNOWN_WIN at *; omega)
        | simp at h

/-- C10 witness: the winning-margin theorem applied to a concrete KRK-like
position (one rook of non-pawn material, kings on C6 and A8). -/
theorem kxk_exceeds_known_win_witness :
    VALUE_KNOWN_WIN < kxk
        { strongToMove := true, stalemate := false, bishops := [],
          knightCount := 0, pawnCount := 0, rookCount := 1, queenCount := 0,
          npm := 1285, winnerKSq := ⟨42, by norm_num⟩, loserKSq := ⟨56, by norm_num⟩ } :=
  (kxk_exceeds_known_win
    { strongToMove := true, stalemate := false, bishops := [],
      knightCount := 0, pawnCount := 0, rookCount := 1, queenCount := 0,
      npm := 1285, winnerKSq := ⟨42, by norm_num⟩, loserKSq := ⟨56, by norm_num⟩ }
    rfl (by decide)).1 rfl

/-! KP vs K value evaluator (`Endgame<KPK>::operator()` in src/endgame.cpp).
The bitbase (`Bitbases::probe`) is the external exact-result oracle; it
enters the embedding as a function argument. -/

/-- Value evaluator for KP vs K, translated from src/endgame.cpp lines
194-213.  `probe` receives the normalized (strong king, pawn, weak king)
triple and the normalized side to move (WHITE exactly when the strong side
is to move). -/
def kpk (probe : Square → Square → Square → Color → Bool)
    (strongSide : Color) (strongKSq weakKSq pawnSq : Square)
    (strongToMove : Bool) : Int :=
  if !(probe (normalize pawnSq strongSide strongKSq)
             (normalize pawnSq strongSide pawnSq)
             (normalize pawnSq strongSide weakKSq)
             (if strongToMove then Color.WHITE else Color.BLACK)) then VALUE_DRAW
  else if strongToMove then
    VALUE_KNOWN_WIN - PawnValueEg / 4 *
      (7 - (rank_of (normalize pawnSq strongSide pawnSq) : Int))
  else
    -(VALUE_KNOWN_WIN - PawnValueEg / 4 *
      (7 - (rank_of (normalize pawnSq strongSide pawnSq) : Int)))

/-- C5: the KPK evaluator returns VALUE_DRAW exactly when the oracle,
queried with the normalized square triple and normalized side to move,
reports no win; on a win it returns VALUE_KNOWN_WIN - PawnValueEg/4 * (7 -
rank of the normalized pawn), sign-flipped when the weak side is to move,
and that winning magnitude is strictly increasing in the pawn's rank. -/
theorem kpk_spec (probe : Square → Square → Square → Color → Bool)
    (strongSide : Color) (strongKSq weakKSq pawnSq : Square)
    (strongToMove : Bool) :
    (kpk probe strongSide strongKSq weakKSq pawnSq strongToMove = VALUE_DRAW
      ↔ probe (normalize pawnSq strongSide strongKSq)
              (normalize pawnSq strongSide pawnSq)
              (normalize pawnSq strongSide weakKSq)
              (if strongToMove then Color.WHITE else Color.BLACK) = false)
    ∧ (probe (normalize pawnSq strongSide strongKSq)
             (normalize pawnSq strongSide pawnSq)
             (normalize pawnSq strongSide weakKSq)
             (if strongToMove then Color.WHITE else Color.BLACK) = true →
        kpk probe strongSide strongKSq weakKSq pawnSq strongToMove
          = (if strongToMove then 1 else -1) *
            (VALUE_KNOWN_WIN - PawnValueEg / 4 *
              (7 - (rank_of (normalize pawnSq strongSide pawnSq) : Int))))
    ∧ (∀ r1 r2 : Nat, r1 < r2 → r2 ≤ 7 →
        VALUE_KNOWN_WIN - PawnValueEg / 4 * (7 - (r1 : Int))
          < VALUE_KNOWN_WIN - PawnValueEg / 4 * (7 - (r2 : Int))) := by
  have hrk : rank_of (normalize pawnSq strongSide pawnSq) < 8 := rank_of_lt _
  have h64 : (PawnValueEg / 4 : Int) = 64 := by decide
  refine ⟨?_, ?_, ?_⟩
  · unfold kpk
    rcases hpr : probe (normalize pawnSq strongSide strongKSq)
        (normalize pawnSq strongSide pawnSq)
        (normalize pawnSq strongSide weakKSq)
        (if strongToMove then Color.WHITE else Color.BLACK) with _ | _
    · simp
    · simp only [Bool.not_true, Bool.false_eq_true, if_false]
      constructor
      · intro h
        exfalso
        rcases strongToMove with _ | _ <;>
          simp only [Bool.false_eq_true, if_false, if_true] at h <;>
          rw [h64] at h <;>
          unfold VALUE_DRAW VALUE_KNOWN_WIN at h <;>
          omega
      · intro h
        exact absurd h (by simp)
  · intro hpr
    unfold kpk
    rw [hpr]
    simp only [Bool.not_true, Bool.false_eq_true, if_false]
    rcases strongToMove with _ | _ <;> simp
  · intro r1 r2 h12 h27
    rw [h64]
    unfold VALUE_KNOWN_WIN
    omega

/-- C5 witness: the KPK specification theorem applied with an
always-winning oracle, strong side white, kings on E6 and E8, pawn on E5,
strong side to move; the win branch formula is obtained concretely. -/
theorem kpk_spec_witness :
    kpk (fun _ _ _ _ => true) Color.WHITE ⟨44, by norm_num⟩ ⟨60, by norm_num⟩
        ⟨36, by norm_num⟩ true
      = (if true then 1 else -1) *
        (VALUE_KNOWN_WIN - PawnValueEg / 4 *
          (7 - (rank_of (normalize ⟨36, by norm_num⟩ Color.WHITE ⟨36, by norm_num⟩) : Int))) :=
  (kpk_spec (fun _ _ _ _ => true) Color.WHITE ⟨44, by norm_num⟩ ⟨60, by norm_num⟩
      ⟨36, by norm_num⟩ true).2.1 rfl

/-! Scale-factor evaluators.  Bitboard sets are lists of squares; queries
whose answer depends on board occupancy (sliding attacks, passed-pawn
tests) enter as Boolean inputs. -/

/-- Least-index square of a nonempty square set, engine `lsb` on a bitboard. -/
def lsbList (l : List Square) : Square :=
  l.foldl (fun a b => if b.val < a.val then b else a) (l.headD sqA1)

/-- Greatest-index square of a nonempty square set, engine `msb` on a bitboard. -/
def msbList (l : List Square) : Square :=
  l.foldl (fun a b => if a.val < b.val then b else a) (l.headD sqA1)

/-- Engine `backmost_sq(c, b)`: lsb for WHITE, msb for BLACK. -/
def backmost_sq (c : Color) (l : List Square) : Square :=
  match c with
  | Color.WHITE => lsbList l
  | Color.BLACK => msbList l

/-- The fortress-zone bitmask per color used by the KQKRPs evaluator, the
`FortressMask` constants of src/endgame.cpp. -/
def FortressMask (c : Color) : Nat :=
  match c with
  | Color.WHITE => 0x00007E4242C37E00
  | Color.BLACK => 0x007EC342427E0000

/-- Membership of a square in a 64-bit bitboard constant. -/
def inBB (m : Nat) (s : Square) : Bool := ((m >>> s.val) &&& 1) == 1

/-- Membership in `attacks_from<KING>(k)`: the squares at Chebyshev
distance 1 (king-attack geometry, from the engine's bitboard tables). -/
def kingAttack (k s : Square) : Bool := distance k s == 1

/-- Membership of `s` in `attacks_from<PAWN>(frm, c)`: one rank forward for
color `c` and one file to either side (pawn-attack geometry, from the
engine's bitboard tables). -/
def pawnAttack (c : Color) (frm s : Square) : Bool :=
  fileDistance frm s == 1 &&
    (match c with
     | Color.WHITE => rank_of s == rank_of frm + 1
     | Color.BLACK => rank_of s + 1 == rank_of frm)

/-- Input snapshot of the KQKRPs evaluator (strong side: lone queen; weak
side: one rook and at least one pawn). -/
structure KQKRPsPos where
  strongSide : Color
  /-- `pos.pieces(weakSide, PAWN)` as a list of squares. -/
  weakPawns : List Square
  /-- `pos.square<KING>(strongSide)`. -/
  strongKingSq : Square
  /-- `pos.square<KING>(weakSide)`. -/
  weakKingSq : Square
  /-- `pos.square<ROOK>(weakSide)`. -/
  rsq : Square
  /-- `pos.rule50_count()`. -/
  rule50 : Nat

/-- The fortress test of the KQKRPs evaluator, translated from
src/endgame.cpp lines 395-399: a weak pawn inside the fortress mask, the
strong king on a higher relative rank than the weak rook, and a weak pawn
that is simultaneously adjacent to the weak king and attacked (as a
strong-side pawn would) from the rook's square. -/
def kqkrpsFortress (p : KQKRPsPos) : Bool :=
  let weakSide := opp p.strongSide
  p.weakPawns.any (fun s => inBB (FortressMask weakSide) s)
  && decide (relative_rank weakSide p.rsq < relative_rank weakSide p.strongKingSq)
  && p.weakPawns.any (fun s => kingAttack p.weakKingSq s && pawnAttack p.strongSide p.rsq s)

/-- Scale evaluator for KQ vs KR plus pawns, translated from
src/endgame.cpp lines 384-404.  The non-fortress branch keeps the exact
C++ integer semantics: `(101 - rule50) / 172` is an int division truncated
toward zero (the subsequent double multiplication by SCALE_FACTOR_NORMAL
and cast back to int are exact for these magnitudes). -/
def kqkrps (p : KQKRPsPos) : Int :=
  if kqkrpsFortress p then SCALE_FACTOR_DRAW
  else if 14 < p.rule50 then
    SCALE_FACTOR_NORMAL * Int.tdiv (101 - (p.rule50 : Int)) 172
  else SCALE_FACTOR_NONE

/-- C2: whenever the fortress pattern does not match, the KQKRPs evaluator
returns SCALE_FACTOR_NONE for fifty-move counters up to 14 and otherwise
exactly SCALE_FACTOR_NORMAL times the integer-truncated quotient
(101 - rule50) / 172. -/
theorem kqkrps_no_fortress (p : KQKRPsPos) (h : kqkrpsFortress p = false) :
    (p.rule50 ≤ 14 → kqkrps p = SCALE_FACTOR_NONE)
    ∧ (14 < p.rule50 →
        kqkrps p = SCALE_FACTOR_NORMAL * Int.tdiv (101 - (p.rule50 : Int)) 172) := by
  constructor
  · intro hle
    unfold kqkrps
    rw [h]
    simp only [Bool.false_eq_true, if_false]
    rw [if_neg (by omega)]
  · intro hgt
    unfold kqkrps
    rw [h]
    simp only [Bool.false_eq_true, if_false]
    rw [if_pos hgt]

/-- C2 witness: the non-fortress theorem applied to a concrete position
(white queen side, weak black rook on A3 with no pawns near the fortress
zone, fifty-move counter 30), evaluating both the guard and the formula. -/
theorem kqkrps_no_fortress_witness :
    kqkrps
        { strongSide := Color.WHITE, weakPawns := [⟨32, by norm_num⟩],
          strongKingSq := ⟨36, by norm_num⟩, weakKingSq := ⟨60, by norm_num⟩,
          rsq := ⟨16, by norm_num⟩, rule50 := 30 }
      = SCALE_FACTOR_NORMAL * Int.tdiv (101 - (30 : Int)) 172 :=
  (kqkrps_no_fortress
    { strongSide := Color.WHITE, weakPawns := [⟨32, by norm_num⟩],
      strongKingSq := ⟨36, by norm_num⟩, weakKingSq := ⟨60, by norm_num⟩,
      rsq := ⟨16, by norm_num⟩, rule50 := 30 }
    (by decide)).2 (by norm_num)

/-- Core of the KRP vs KR scale evaluator on normalized squares, translated
branch by branch from src/endgame.cpp lines 413-505.  `tempo` is 1 when the
strong side is to move, else 0.  Square 39 is H5, 48 is A7, 56 is A8, 55 is
H7, 54 is G7; rank indices 0..7 stand for RANK_1..RANK_8. -/
def krpkrN (wksq bksq wrsq wpsq brsq : Square) (tempo : Nat) : Int :=
  if rank_of wpsq ≤ 4 ∧ distance bksq (make_square (file_of wpsq) 7) ≤ 1 ∧ wksq.val ≤ 39
     ∧ (rank_of brsq = 5 ∨ (rank_of wpsq ≤ 2 ∧ rank_of wrsq ≠ 5)) then SCALE_FACTOR_DRAW
  else if rank_of wpsq = 5 ∧ distance bksq (make_square (file_of wpsq) 7) ≤ 1
     ∧ rank_of wksq + tempo ≤ 5
     ∧ (rank_of brsq = 0 ∨ (tempo = 0 ∧ 3 ≤ fileDistance brsq wpsq)) then SCALE_FACTOR_DRAW
  else if 5 ≤ rank_of wpsq ∧ bksq = make_square (file_of wpsq) 7 ∧ rank_of brsq = 0
     ∧ (tempo = 0 ∨ 2 ≤ distance wksq wpsq) then SCALE_FACTOR_DRAW
  else if wpsq.val = 48 ∧ wrsq.val = 56 ∧ (bksq.val = 55 ∨ bksq.val = 54)
     ∧ file_of brsq = 0 ∧ (rank_of brsq ≤ 2 ∨ 3 ≤ file_of wksq ∨ rank_of wksq ≤ 4)
     then SCALE_FACTOR_DRAW
  else if rank_of wpsq ≤ 4 ∧ bksq.val = wpsq.val + 8 ∧ 2 + tempo ≤ distance wksq wpsq
     ∧ 2 + tempo ≤ distance wksq brsq then SCALE_FACTOR_DRAW
  else if rank_of wpsq = 6 ∧ file_of wpsq ≠ 0 ∧ file_of wrsq = file_of wpsq
     ∧ wrsq ≠ make_square (file_of wpsq) 7
     ∧ ((distance wksq (make_square (file_of wpsq) 7) : Int)
        < (distance bksq (make_square (file_of wpsq) 7) : Int) - 2 + tempo)
     ∧ ((distance wksq (make_square (file_of wpsq) 7) : Int)
        < (distance bksq wrsq : Int) + tempo)
     then SCALE_FACTOR_MAX - 2 * (distance wksq (make_square (file_of wpsq) 7) : Int)
  else if file_of wpsq ≠ 0 ∧ file_of wrsq = file_of wpsq ∧ wrsq.val < wpsq.val
     ∧ ((distance wksq (make_square (file_of wpsq) 7) : Int)
        < (distance bksq (make_square (file_of wpsq) 7) : Int) - 2 + tempo)
     ∧ ((distance wksq (sqShift wpsq 8) : Int)
        < (distance bksq (sqShift wpsq 8) : Int) - 2 + tempo)
     ∧ (3 ≤ (distance bksq wrsq : Int) + tempo
        ∨ ((distance wksq (make_square (file_of wpsq) 7) : Int)
             < (distance bksq wrsq : Int) + tempo
           ∧ (distance wksq (sqShift wpsq 8) : Int)
             < (distance bksq wrsq : Int) + tempo))
     then SCALE_FACTOR_MAX - 8 * (distance wpsq (make_square (file_of wpsq) 7) : Int)
            - 2 * (distance wksq (make_square (file_of wpsq) 7) : Int)
  else if rank_of wpsq ≤ 3 ∧ wpsq.val < bksq.val then
    (if file_of bksq = file_of wpsq then (10 : Int)
     else if fileDistance bksq wpsq = 1 ∧ 2 < distance wksq bksq
       then 24 - 2 * (distance wksq bksq : Int)
     else SCALE_FACTOR_NONE)
  else SCALE_FACTOR_NONE

/-- Scale evaluator for KRP vs KR: all five piece squares are normalized
with the strong pawn's square exactly as in src/endgame.cpp lines 420-424,
then the branch cascade `krpkrN` runs on the canonical orientation. -/
def krpkr (strongSide : Color) (strongKSq weakKSq strongRSq pawnSq weakRSq : Square)
    (strongToMove : Bool) : Int :=
  krpkrN (normalize pawnSq strongSide strongKSq)
         (normalize pawnSq strongSide weakKSq)
         (normalize pawnSq strongSide strongRSq)
         (normalize pawnSq strongSide pawnSq)
         (normalize pawnSq strongSide weakRSq)
         (if strongToMove then 1 else 0)

set_option maxHeartbeats 1600000 in
theorem krpkrN_range (wksq bksq wrsq wpsq brsq : Square) (tempo : Nat) :
    0 ≤ krpkrN wksq bksq wrsq wpsq brsq tempo
    ∧ krpkrN wksq bksq wrsq wpsq brsq tempo ≤ 255 := by
  have h1 := distance_le wksq (make_square (file_of wpsq) 7)
  have h2 := distance_le wpsq (make_square (file_of wpsq) 7)
  have h3 := distance_le wksq bksq
  unfold krpkrN SCALE_FACTOR_DRAW SCALE_FACTOR_MAX SCALE_FACTOR_NONE
  constructor <;> (repeat' split) <;> omega

/-- Membership of `s` in `PseudoAttacks[BISHOP][b]`: empty-board bishop
attack, i.e. a different square on the same diagonal or anti-diagonal
(bitboard-table geometry, external collaborator). -/
def pseudoBishopAttack (b s : Square) : Bool :=
  b != s && (file_of b + rank_of s == file_of s + rank_of b
             || file_of b + rank_of b == file_of s + rank_of s)

/-- Scale evaluator for KRP vs KB, translated from src/endgame.cpp lines
507-549. The strong side's only pawn is `psq`, so the rook-pawn test
`pieces(PAWN) & (FileABB | FileHBB)` reduces to a file test on `psq`. -/
def krpkb (strongSide : Color) (psq ksq bsq strongKingSq : Square) : Int :=
  if file_of psq = 0 ∨ file_of psq = 7 then
    (if relative_rank strongSide psq = 4 ∧ opposite_colors bsq psq = false then
      (if distance (sqShift psq (3 * pawnPushDelta strongSide)) ksq ≤ 2
          ∧ ¬(distance (sqShift psq (3 * pawnPushDelta strongSide)) ksq = 0
              ∧ ksq = sqShift strongKingSq (2 * pawnPushDelta strongSide))
       then (24 : Int) else (48 : Int))
     else if relative_rank strongSide psq = 5
        ∧ distance (sqShift psq (2 * pawnPushDelta strongSide)) ksq ≤ 1
        ∧ pseudoBishopAttack bsq (sqShift psq (pawnPushDelta strongSide)) = true
        ∧ 2 ≤ fileDistance bsq psq
       then (8 : Int)
     else SCALE_FACTOR_NONE)
  else SCALE_FACTOR_NONE

theorem krpkb_range (strongSide : Color) (psq ksq bsq strongKingSq : Square) :
    0 ≤ krpkb strongSide psq ksq bsq strongKingSq
    ∧ krpkb strongSide psq ksq bsq strongKingSq ≤ 255 := by
  unfold krpkb SCALE_FACTOR_NONE
  constructor <;> (repeat' split) <;> omega

/-- Scale evaluator for KRPP vs KRP, translated from src/endgame.cpp lines
553-577.  `wpsq1`, `wpsq2` are the strong pawns, `bksq` the weak king;
`passed1`, `passed2` are the external `pos.pawn_passed` answers for the two
pawns. -/
def krppkrp (strongSide : Color) (wpsq1 wpsq2 bksq : Square)
    (passed1 passed2 : Bool) : Int :=
  if passed1 = true ∨ passed2 = true then SCALE_FACTOR_NONE
  else if fileDistance bksq wpsq1 ≤ 1 ∧ fileDistance bksq wpsq2 ≤ 1
      ∧ max (relative_rank strongSide wpsq1) (relative_rank strongSide wpsq2)
        < relative_rank strongSide bksq then
    tableAt KRPPKRPScaleFactors
      (max (relative_rank strongSide wpsq1) (relative_rank strongSide wpsq2))
  else SCALE_FACTOR_NONE

theorem relative_rank_lt (c : Color) (s : Square) : relative_rank c s < 8 := by
  have h := rank_of_lt s
  rcases c with _ | _ <;> simp only [relative_rank] <;> omega

theorem krppkrpTable_range (r : Nat) :
    0 ≤ tableAt KRPPKRPScaleFactors r ∧ tableAt KRPPKRPScaleFactors r ≤ 255 := by
  rcases Nat.lt_or_ge r 8 with h | h
  · interval_cases r <;> constructor <;> decide
  · unfold tableAt
    rw [List.getD_eq_default]
    · constructor <;> decide
    · unfold KRPPKRPScaleFactors
      simp
      omega

theorem krppkrp_range (strongSide : Color) (wpsq1 wpsq2 bksq : Square)
    (passed1 passed2 : Bool) :
    0 ≤ krppkrp strongSide wpsq1 wpsq2 bksq passed1 passed2
    ∧ krppkrp strongSide wpsq1 wpsq2 bksq passed1 passed2 ≤ 255 := by
  have h := krppkrpTable_range
      (max (relative_rank strongSide wpsq1) (relative_rank strongSide wpsq2))
  unfold krppkrp SCALE_FACTOR_NONE
  constructor <;> (repeat' split) <;> omega

/-- C9: under the structural preconditions (both strong pawns on relative
ranks 2..7, a pawn on relative rank 7 necessarily passed), whenever the
table-lookup branch of the KRPP vs KRP evaluator is reached, the maximal
relative pawn rank lies strictly between RANK_1 and RANK_7 (indices 0 and
6), the table index is in bounds, and the returned factor is one of
9, 10, 14, 21, 44. -/
theorem krppkrp_table_branch (strongSide : Color) (wpsq1 wpsq2 bksq : Square)
    (passed1 passed2 : Bool)
    (hr1 : 1 ≤ relative_rank strongSide wpsq1 ∧ relative_rank strongSide wpsq1 ≤ 6)
    (hr2 : 1 ≤ relative_rank strongSide wpsq2 ∧ relative_rank strongSide wpsq2 ≤ 6)
    (h71 : relative_rank strongSide wpsq1 = 6 → passed1 = true)
    (h72 : relative_rank strongSide wpsq2 = 6 → passed2 = true)
    (hnp : passed1 = false ∧ passed2 = false)
    (hbr : fileDistance bksq wpsq1 ≤ 1 ∧ fileDistance bksq wpsq2 ≤ 1
      ∧ max (relative_rank strongSide wpsq1) (relative_rank strongSide wpsq2)
        < relative_rank strongSide bksq) :
    (0 < max (relative_rank strongSide wpsq1) (relative_rank strongSide wpsq2)
      ∧ max (relative_rank strongSide wpsq1) (relative_rank strongSide wpsq2) < 6)
    ∧ krppkrp strongSide wpsq1 wpsq2 bksq passed1 passed2
        ∈ ([9, 10, 14, 21, 44] : List Int) := by
  have hmax : 1 ≤ max (relative_rank strongSide wpsq1) (relative_rank strongSide wpsq2)
      ∧ max (relative_rank strongSide wpsq1) (relative_rank strongSide wpsq2) ≤ 5 := by
    rcases hnp with ⟨hp1, hp2⟩
    have hn1 : relative_rank strongSide wpsq1 ≠ 6 := by
      intro h
      rw [h71 h] at hp1
      simp at hp1
    have hn2 : relative_rank strongSide wpsq2 ≠ 6 := by
      intro h
      rw [h72 h] at hp2
      simp at hp2
    omega
  refine ⟨by omega, ?_⟩
  unfold krppkrp
  rw [if_neg (by simp [hnp.1, hnp.2]), if_pos hbr]
  have h1 := hmax.1
  have h2 := hmax.2
  interval_cases (max (relative_rank strongSide wpsq1) (relative_rank strongSide wpsq2)) <;>
    decide

/-- C9 witness: the table-branch theorem applied to a concrete position
(white pawns on C4 and D4, black king on D6, neither pawn passed), where
the returned factor is 14. -/
theorem krppkrp_table_branch_witness :
    krppkrp Color.WHITE ⟨26, by norm_num⟩ ⟨27, by norm_num⟩ ⟨43, by norm_num⟩ false false
      ∈ ([9, 10, 14, 21, 44] : List Int) :=
  (krppkrp_table_branch Color.WHITE ⟨26, by norm_num⟩ ⟨27, by norm_num⟩ ⟨43, by norm_num⟩
    false false (by decide) (by decide) (by decide) (by decide) ⟨rfl, rfl⟩
    (by decide)).2

/-- Membership of pawn `s` in `in_front_bb(c, r)`: the ranks strictly in
front of rank `r` from color c's point of view (bitboard geometry,
external collaborator). -/
def inFrontOfRank (c : Color) (r : Nat) (s : Square) : Bool :=
  match c with
  | Color.WHITE => decide (r < rank_of s)
  | Color.BLACK => decide (rank_of s < r)

/-- Scale evaluator for K and two or more pawns vs K, translated from
src/endgame.cpp lines 582-600.  `strongPawns` is the strong side's pawn
set, `ksq` the weak king square. -/
def kpsk (strongSide : Color) (strongPawns : List Square) (ksq : Square) : Int :=
  if (∀ s ∈ strongPawns, inFrontOfRank (opp strongSide) (rank_of ksq) s = true)
     ∧ ((∀ s ∈ strongPawns, file_of s = 0) ∨ (∀ s ∈ strongPawns, file_of s = 7))
     ∧ fileDistance ksq (lsbList strongPawns) ≤ 1
  then SCALE_FACTOR_DRAW else SCALE_FACTOR_NONE

theorem kpsk_range (strongSide : Color) (strongPawns : List Square) (ksq : Square) :
    0 ≤ kpsk strongSide strongPawns ksq ∧ kpsk strongSide strongPawns ksq ≤ 255 := by
  unfold kpsk SCALE_FACTOR_DRAW SCALE_FACTOR_NONE
  constructor <;> split <;> omega

/-- Input snapshot of the KBPsK evaluator (strong side: one bishop and one
or more pawns; no constraint on the weak side's material). -/
structure KBPsKPos where
  strongSide : Color
  /-- `pos.pieces(strongSide, PAWN)` as a list of squares. -/
  strongPawns : List Square
  /-- `pos.square<BISHOP>(strongSide)`. -/
  bishopSq : Square
  /-- `pos.square<KING>(strongSide)`. -/
  strongKingSq : Square
  /-- `pos.square<KING>(weakSide)`. -/
  weakKingSq : Square
  /-- `pos.pieces(weakSide, PAWN)` as a list of squares. -/
  weakPawns : List Square
  /-- `!more_than_one(pos.pieces(weakSide))`: the weak side has a bare king. -/
  weakHasOnlyKing : Bool
  /-- `pos.non_pawn_material(weakSide) == 0`. -/
  weakNpmZero : Bool

/-- Scale evaluator for KB plus pawns vs K, translated from src/endgame.cpp
lines 304-379: the wrong-colored-bishop rook-pawn draw, the B6/A7 fortress
after normalization (squares 41, 48, 49, 56 are B6, A7, B7, A8), and the
blocked-pawn-on-the-7th pattern on the B or G file. -/
def kbpsk (p : KBPsKPos) : Int :=
  if (file_of (lsbList p.strongPawns) = 0 ∨ file_of (lsbList p.strongPawns) = 7)
     ∧ (∀ s ∈ p.strongPawns, file_of s = file_of (lsbList p.strongPawns))
     ∧ opposite_colors (relative_square p.strongSide
         (make_square (file_of (lsbList p.strongPawns)) 7)) p.bishopSq = true
     ∧ distance (relative_square p.strongSide
         (make_square (file_of (lsbList p.strongPawns)) 7)) p.weakKingSq ≤ 1
  then SCALE_FACTOR_DRAW
  else if p.strongPawns.length = 1 ∧ p.weakHasOnlyKing = true
     ∧ (file_of (lsbList p.strongPawns) = 1 ∨ file_of (lsbList p.strongPawns) = 6)
     ∧ normalize (p.strongPawns.headD sqA1) p.strongSide (p.strongPawns.headD sqA1)
         = (⟨41, by norm_num⟩ : Square)
     ∧ normalize (p.strongPawns.headD sqA1) p.strongSide p.bishopSq
         = (⟨48, by norm_num⟩ : Square)
     ∧ (normalize (p.strongPawns.headD sqA1) p.strongSide p.weakKingSq
          = (⟨49, by norm_num⟩ : Square)
        ∨ normalize (p.strongPawns.headD sqA1) p.strongSide p.weakKingSq
          = (⟨56, by norm_num⟩ : Square))
  then SCALE_FACTOR_DRAW
  else if (file_of (lsbList p.strongPawns) = 1 ∨ file_of (lsbList p.strongPawns) = 6)
     ∧ (∀ s ∈ p.strongPawns ++ p.weakPawns, file_of s = file_of (lsbList p.strongPawns))
     ∧ p.weakNpmZero = true ∧ 1 ≤ p.weakPawns.length
     ∧ relative_rank p.strongSide (backmost_sq (opp p.strongSide) p.weakPawns) = 6
     ∧ (∃ s ∈ p.strongPawns, (s.val : Int)
          = ((backmost_sq (opp p.strongSide) p.weakPawns).val : Int)
            + pawnPushDelta (opp p.strongSide))
     ∧ (opposite_colors p.bishopSq (backmost_sq (opp p.strongSide) p.weakPawns) = true
        ∨ p.strongPawns.length = 1)
     ∧ 6 ≤ relative_rank p.strongSide p.weakKingSq
     ∧ distance (backmost_sq (opp p.strongSide) p.weakPawns) p.weakKingSq ≤ 2
     ∧ distance (backmost_sq (opp p.strongSide) p.weakPawns) p.weakKingSq
         ≤ distance (backmost_sq (opp p.strongSide) p.weakPawns) p.strongKingSq
  then SCALE_FACTOR_DRAW
  else SCALE_FACTOR_NONE

theorem kbpsk_range (p : KBPsKPos) : 0 ≤ kbpsk p ∧ kbpsk p ≤ 255 := by
  unfold kbpsk SCALE_FACTOR_DRAW SCALE_FACTOR_NONE
  constructor <;> (repeat' split) <;> omega

/-- Scale evaluator for KBP vs KB, translated from src/endgame.cpp lines
607-653.  `weakBishopAttacksPath` is the external occupancy-dependent query
`attacks_from<BISHOP>(weakBishopSq) & forward_bb(strongSide, pawnSq)`; the
king-blocks-path test of case 2b is pure square geometry (same file,
strictly higher relative rank). -/
def kbpkb (strongSide : Color) (pawnSq strongBishopSq weakBishopSq weakKingSq : Square)
    (weakBishopAttacksPath : Bool) : Int :=
  if file_of weakKingSq = file_of pawnSq
     ∧ relative_rank strongSide pawnSq < relative_rank strongSide weakKingSq
     ∧ (opposite_colors weakKingSq strongBishopSq = true
        ∨ relative_rank strongSide weakKingSq ≤ 5)
  then SCALE_FACTOR_DRAW
  else if opposite_colors strongBishopSq weakBishopSq = true then
    (if relative_rank strongSide pawnSq ≤ 4 then SCALE_FACTOR_DRAW
     else if file_of weakKingSq = file_of pawnSq
        ∧ relative_rank strongSide pawnSq < relative_rank strongSide weakKingSq
       then SCALE_FACTOR_DRAW
     else if weakBishopAttacksPath = true ∧ 3 ≤ distance weakBishopSq pawnSq
       then SCALE_FACTOR_DRAW
     else SCALE_FACTOR_NONE)
  else SCALE_FACTOR_NONE

theorem kbpkb_range (strongSide : Color)
    (pawnSq strongBishopSq weakBishopSq weakKingSq : Square)
    (weakBishopAttacksPath : Bool) :
    0 ≤ kbpkb strongSide pawnSq strongBishopSq weakBishopSq weakKingSq weakBishopAttacksPath
    ∧ kbpkb strongSide pawnSq strongBishopSq weakBishopSq weakKingSq weakBishopAttacksPath
        ≤ 255 := by
  unfold kbpkb SCALE_FACTOR_DRAW SCALE_FACTOR_NONE
  constructor <;> (repeat' split) <;> omega

/-- Scale evaluator for KBPP vs KB, translated from src/endgame.cpp lines
657-722.  `bishopAttacksBlock1`/`bishopAttacksBlock2` are the external
occupancy-dependent queries `attacks_from<BISHOP>(blockSq_i) &
pieces(weakSide, BISHOP)`. -/
def kbppkb (strongSide : Color) (wbsq bbsq ksq psq1 psq2 : Square)
    (bishopAttacksBlock1 bishopAttacksBlock2 : Bool) : Int :=
  if opposite_colors wbsq bbsq = false then SCALE_FACTOR_NONE
  else if fileDistance psq1 psq2 = 0 then
    (if file_of ksq = file_of (if relative_rank strongSide psq2 < relative_rank strongSide psq1
          then sqShift psq1 (pawnPushDelta strongSide)
          else sqShift psq2 (pawnPushDelta strongSide))
       ∧ relative_rank strongSide (if relative_rank strongSide psq2 < relative_rank strongSide psq1
           then sqShift psq1 (pawnPushDelta strongSide)
           else sqShift psq2 (pawnPushDelta strongSide))
         ≤ relative_rank strongSide ksq
       ∧ opposite_colors ksq wbsq = true
     then SCALE_FACTOR_DRAW else SCALE_FACTOR_NONE)
  else if fileDistance psq1 psq2 = 1 then
    (if ksq = (if relative_rank strongSide psq2 < relative_rank strongSide psq1
          then sqShift psq1 (pawnPushDelta strongSide)
          else sqShift psq2 (pawnPushDelta strongSide))
       ∧ opposite_colors ksq wbsq = true
       ∧ (bbsq = (if relative_rank strongSide psq2 < relative_rank strongSide psq1
            then make_square (file_of psq2) (rank_of psq1)
            else make_square (file_of psq1) (rank_of psq2))
          ∨ bishopAttacksBlock2 = true
          ∨ 2 ≤ max (rank_of psq1) (rank_of psq2) - min (rank_of psq1) (rank_of psq2))
     then SCALE_FACTOR_DRAW
     else if ksq = (if relative_rank strongSide psq2 < relative_rank strongSide psq1
          then make_square (file_of psq2) (rank_of psq1)
          else make_square (file_of psq1) (rank_of psq2))
       ∧ opposite_colors ksq wbsq = true
       ∧ (bbsq = (if relative_rank strongSide psq2 < relative_rank strongSide psq1
            then sqShift psq1 (pawnPushDelta strongSide)
            else sqShift psq2 (pawnPushDelta strongSide))
          ∨ bishopAttacksBlock1 = true)
     then SCALE_FACTOR_DRAW else SCALE_FACTOR_NONE)
  else SCALE_FACTOR_NONE

theorem kbppkb_range (strongSide : Color) (wbsq bbsq ksq psq1 psq2 : Square)
    (bishopAttacksBlock1 bishopAttacksBlock2 : Bool) :
    0 ≤ kbppkb strongSide wbsq bbsq ksq psq1 psq2 bishopAttacksBlock1 bishopAttacksBlock2
    ∧ kbppkb strongSide wbsq bbsq ksq psq1 psq2 bishopAttacksBlock1 bishopAttacksBlock2
        ≤ 255 := by
  unfold kbppkb SCALE_FACTOR_DRAW SCALE_FACTOR_NONE
  constructor <;> (repeat' split) <;> omega

/-- Scale evaluator for KBP vs KN, translated from src/endgame.cpp lines
728-745. -/
def kbpkn (strongSide : Color) (pawnSq strongBishopSq weakKingSq : Square) : Int :=
  if file_of weakKingSq = file_of pawnSq
     ∧ relative_rank strongSide pawnSq < relative_rank strongSide weakKingSq
     ∧ (opposite_colors weakKingSq strongBishopSq = true
        ∨ relative_rank strongSide weakKingSq ≤ 5)
  then SCALE_FACTOR_DRAW
  else SCALE_FACTOR_NONE

theorem kbpkn_range (strongSide : Color) (pawnSq strongBishopSq weakKingSq : Square) :
    0 ≤ kbpkn strongSide pawnSq strongBishopSq weakKingSq
    ∧ kbpkn strongSide pawnSq strongBishopSq weakKingSq ≤ 255 := by
  unfold kbpkn SCALE_FACTOR_DRAW SCALE_FACTOR_NONE
  constructor <;> split <;> omega

/-- Scale evaluator for KNP vs K, translated from src/endgame.cpp lines
751-773 (squares 48, 49, 50, 56, 58 are A7, B7, C7, A8, C8 after
normalization). -/
def knpk (strongSide : Color) (pawnSq knightSq strongKSq weakKSq : Square)
    (strongToMove : Bool) : Int :=
  if normalize pawnSq strongSide pawnSq = (⟨48, by norm_num⟩ : Square) then
    (if normalize pawnSq strongSide weakKSq = (⟨56, by norm_num⟩ : Square)
        ∨ normalize pawnSq strongSide weakKSq = (⟨49, by norm_num⟩ : Square)
     then SCALE_FACTOR_DRAW
     else if (normalize pawnSq strongSide weakKSq = (⟨58, by norm_num⟩ : Square)
         ∨ normalize pawnSq strongSide weakKSq = (⟨50, by norm_num⟩ : Square))
        ∧ normalize pawnSq strongSide strongKSq = (⟨56, by norm_num⟩ : Square)
        ∧ strongToMove = !(opposite_colors (normalize pawnSq strongSide weakKSq)
            (normalize pawnSq strongSide knightSq))
     then SCALE_FACTOR_DRAW
     else SCALE_FACTOR_NONE)
  else SCALE_FACTOR_NONE

theorem knpk_range (strongSide : Color) (pawnSq knightSq strongKSq weakKSq : Square)
    (strongToMove : Bool) :
    0 ≤ knpk strongSide pawnSq knightSq strongKSq weakKSq strongToMove
    ∧ knpk strongSide pawnSq knightSq strongKSq weakKSq strongToMove ≤ 255 := by
  unfold knpk SCALE_FACTOR_DRAW SCALE_FACTOR_NONE
  constructor <;> (repeat' split) <;> omega

/-- Scale evaluator for KNP vs KB, translated from src/endgame.cpp lines
778-791.  `bishopAttacksPawnPath` is the external occupancy-dependent query
`forward_bb(strongSide, pawnSq) & attacks_from<BISHOP>(bishopSq)`. -/
def knpkb (pawnSq weakKingSq : Square) (bishopAttacksPawnPath : Bool) : Int :=
  if bishopAttacksPawnPath = true then (distance weakKingSq pawnSq : Int)
  else SCALE_FACTOR_NONE

theorem knpkb_range (pawnSq weakKingSq : Square) (bishopAttacksPawnPath : Bool) :
    0 ≤ knpkb pawnSq weakKingSq bishopAttacksPawnPath
    ∧ knpkb pawnSq weakKingSq bishopAttacksPawnPath ≤ 255 := by
  have h := distance_le weakKingSq pawnSq
  unfold knpkb SCALE_FACTOR_NONE
  constructor <;> split <;> omega

theorem kqkrps_range (p : KQKRPsPos) (h : p.rule50 ≤ 100) :
    0 ≤ kqkrps p ∧ kqkrps p ≤ 255 := by
  unfold kqkrps SCALE_FACTOR_DRAW SCALE_FACTOR_NORMAL SCALE_FACTOR_NONE
  split
  · omega
  · split
    · next hgt =>
      have h0 : Int.tdiv (101 - (p.rule50 : Int)) 172 = 0 :=
        Int.tdiv_eq_zero_of_lt (by omega) (by omega)
      rw [h0]
      omega
    · omega

/-- C1: every scale-category evaluator returns a value between 0 and
SCALE_FACTOR_NONE (the no-adjustment maximum) inclusive, for every input
satisfying its material precondition; the KQKRPs conjunct additionally
assumes the fifty-move counter stays within its legal domain 0..100. -/
theorem scale_factor_range :
    (∀ p : KBPsKPos, 0 ≤ kbpsk p ∧ kbpsk p ≤ SCALE_FACTOR_NONE)
    ∧ (∀ p : KQKRPsPos, p.rule50 ≤ 100 → 0 ≤ kqkrps p ∧ kqkrps p ≤ SCALE_FACTOR_NONE)
    ∧ (∀ (c : Color) (sk wk sr pw wr : Square) (stm : Bool),
        0 ≤ krpkr c sk wk sr pw wr stm ∧ krpkr c sk wk sr pw wr stm ≤ SCALE_FACTOR_NONE)
    ∧ (∀ (c : Color) (psq ksq bsq skq : Square),
        0 ≤ krpkb c psq ksq bsq skq ∧ krpkb c psq ksq bsq skq ≤ SCALE_FACTOR_NONE)
    ∧ (∀ (c : Color) (p1 p2 bk : Square) (x1 x2 : Bool),
        0 ≤ krppkrp c p1 p2 bk x1 x2 ∧ krppkrp c p1 p2 bk x1 x2 ≤ SCALE_FACTOR_NONE)
    ∧ (∀ (c : Color) (pawns : List Square) (k : Square),
        0 ≤ kpsk c pawns k ∧ kpsk c pawns k ≤ SCALE_FACTOR_NONE)
    ∧ (∀ (c : Color) (pw sb wb wk : Square) (x : Bool),
        0 ≤ kbpkb c pw sb wb wk x ∧ kbpkb c pw sb wb wk x ≤ SCALE_FACTOR_NONE)
    ∧ (∀ (c : Color) (wb bb k p1 p2 : Square) (x1 x2 : Bool),
        0 ≤ kbppkb c wb bb k p1 p2 x1 x2 ∧ kbppkb c wb bb k p1 p2 x1 x2 ≤ SCALE_FACTOR_NONE)
    ∧ (∀ (c : Color) (pw sb wk : Square),
        0 ≤ kbpkn c pw sb wk ∧ kbpkn c pw sb wk ≤ SCALE_FACTOR_NONE)
    ∧ (∀ (c : Color) (pw kn sk wk : Square) (stm : Bool),
        0 ≤ knpk c pw kn sk wk stm ∧ knpk c pw kn sk wk stm ≤ SCALE_FACTOR_NONE)
    ∧ (∀ (pw wk : Square) (x : Bool),
        0 ≤ knpkb pw wk x ∧ knpkb pw wk x ≤ SCALE_FACTOR_NONE) := by
  have hnone : SCALE_FACTOR_NONE = 255 := rfl
  rw [hnone]
  exact ⟨kbpsk_range,
         kqkrps_range,
         fun c sk wk sr pw wr stm => krpkrN_range _ _ _ _ _ _,
         krpkb_range,
         krppkrp_range,
         kpsk_range,
         kbpkb_range,
         kbppkb_range,
         kbpkn_range,
         knpk_range,
         knpkb_range⟩

/-- C1 witness: the range theorem instantiated at concrete inputs for the
KQKRPs conjunct (fifty-move counter 30) and for the KNPKB conjunct. -/
theorem scale_factor_range_witness :
    (0 ≤ kqkrps
        { strongSide := Color.WHITE, weakPawns := [⟨32, by norm_num⟩],
          strongKingSq := ⟨36, by norm_num⟩, weakKingSq := ⟨60, by norm_num⟩,
          rsq := ⟨16, by norm_num⟩, rule50 := 30 }
      ∧ kqkrps
        { strongSide := Color.WHITE, weakPawns := [⟨32, by norm_num⟩],
          strongKingSq := ⟨36, by norm_num⟩, weakKingSq := ⟨60, by norm_num⟩,
          rsq := ⟨16, by norm_num⟩, rule50 := 30 } ≤ SCALE_FACTOR_NONE)
    ∧ (0 ≤ knpkb ⟨8, by norm_num⟩ ⟨60, by norm_num⟩ true
       ∧ knpkb ⟨8, by norm_num⟩ ⟨60, by norm_num⟩ true ≤ SCALE_FACTOR_NONE) :=
  ⟨scale_factor_range.2.1
      { strongSide := Color.WHITE, weakPawns := [⟨32, by norm_num⟩],
        strongKingSq := ⟨36, by norm_num⟩, weakKingSq := ⟨60, by norm_num⟩,
        rsq := ⟨16, by norm_num⟩, rule50 := 30 } (by norm_num),
   scale_factor_range.2.2.2.2.2.2.2.2.2.2 ⟨8, by norm_num⟩ ⟨60, by norm_num⟩ true⟩

/-! Material Signature Builder: the `key` helper of src/endgame.cpp.  The
signature itself is produced by the external Position collaborator from a
forged FEN; the embedded part is the input validation, which is what claim
C8 is about.  The `key` function asserts a nonempty code of length < 8
whose first character is K, and its split at the second K
(`code.substr(code.find('K', 1))`) raises an out-of-range error when no
second K exists.  `keyErrorBranch` is true exactly when one of these error
paths is taken. -/

/-- True when the code has a K somewhere after its first character, which
is what `code.find('K', 1) != npos` requires. -/
def hasSecondK (code : String) : Bool := (code.toList.drop 1).contains 'K'

/-- The error branch of the signature-building `key` function: a failed
assertion (empty code, length at least 8, first character not K) or the
out-of-range substring split when the second K is missing. -/
def keyErrorBranch (code : String) : Bool :=
  code.length == 0 || decide (8 ≤ code.length)
  || !(code.toList.headD ' ' == 'K') || !(hasSecondK code)

/-- Modelled from the spec, for a refinement comparison only: the claim's
list of malformed codes - missing a second K, an empty code, or length at
least 8. -/
def claimC8Malformed (code : String) : Bool :=
  !(hasSecondK code) || code.length == 0 || decide (8 ≤ code.length)

/-- The fixed registration table of `Endgames::Endgames` in
src/endgame.cpp lines 117-132. -/
def registrationCodes : List String :=
  ["KPK", "KNNK", "KRKP", "KQKP", "KNPK", "KNPKB",
   "KRPKR", "KRPKB", "KBPKB", "KBPKN", "KBPPKB", "KRPPKRP"]

/-- C8 counterexample: the code "NKK" is not malformed by the claim's
taxonomy (it has a second K, is nonempty and shorter than 8), yet the key
function's error branch fires on it (the startup assertion requires the
first character to be K), so the error branch is not reached for exactly
the claim's malformed inputs. -/
theorem key_error_branch_counterexample :
    keyErrorBranch "NKK" = true ∧ claimC8Malformed "NKK" = false := by
  constructor <;> rfl

/-- C8 (amended): every input the claim lists as malformed reaches the key
function's error branch, the error branch additionally fires on any code
whose first character is not K, and it fires on no code of the fixed
registration table. -/
theorem key_error_branch_spec :
    (∀ code : String, claimC8Malformed code = true → keyErrorBranch code = true)
    ∧ (∀ code : String, (code.toList.headD ' ' == 'K') = false → keyErrorBranch code = true)
    ∧ (∀ code ∈ registrationCodes, keyErrorBranch code = false) := by
  refine ⟨?_, ?_, by decide⟩
  · intro code h
    unfold claimC8Malformed at h
    unfold keyErrorBranch
    simp only [Bool.or_eq_true] at h ⊢
    tauto
  · intro code h
    unfold keyErrorBranch
    rw [h]
    simp

/-- C8 witness: the amended theorem applied at the concrete malformed code
"KRRRRRRR" (length 8) and at the registered code "KPK". -/
theorem key_error_branch_spec_witness :
    keyErrorBranch "KRRRRRRR" = true ∧ keyErrorBranch "KPK" = false :=
  ⟨key_error_branch_spec.1 "KRRRRRRR" (by rfl),
   key_error_branch_spec.2.2 "KPK" (by decide)⟩

end StockfishEndgame
